import Mathlib

/-
Verification of the earthquake-alert program (src/earthquakes.py) against its
natural-language specification.  The Python module is shallowly embedded:
floats become rationals, the mutable module globals become an explicit record
`FullState`, subprocess handles become `Option Nat`, and the logger / data
files become lists recorded in the state.  The haversine routine
`calculate_distance` (float trigonometry) is abstracted as a distance-function
parameter `dist : Feature → ℚ`, since every claim quantifies over computed
distances rather than trigonometric values.
-/

/-- A raw feed entry: `features[i]` of the USGS GeoJSON body, with the fields
the program reads (`id`, `properties.mag/place/time`,
`geometry.coordinates = [lon, lat, depth]`). -/
structure Feature where
  id : String
  mag : ℚ
  lon : ℚ
  lat : ℚ
  depth : ℚ
  place : String
  time_ms : ℤ
deriving DecidableEq

/-- The record written to `last_quake.json` by `save_last_quake` and appended
to `earthquake_log.txt` by `log_earthquake` (the source formats `time_ms`
through `strftime`; the formatted string is represented by the underlying
epoch milliseconds, which no claim inspects textually). -/
structure QuakeData where
  id : String
  magnitude : ℚ
  depth : ℚ
  location : String
  time_ms : ℤ
  distance : ℚ
deriving DecidableEq

/-- Messages emitted through `logger` that the claims mention. -/
inductive LogEntry where
  /-- `logger.info` alert banner at the top of `play_alarm` (line 97). -/
  | alertInfo
  /-- `logger.error` for a missing alarm sound file (line 106). -/
  | alarmFileMissing
  /-- `logger.info("Alarma detenida.")` in `stop_alarm` (line 161). -/
  | alarmStopped
deriving DecidableEq

/-- The configuration entries of the `CONFIG` dictionary that the embedded
functions read. -/
structure Config where
  MAX_DISTANCE : ℚ
  EVACUATION_MAGNITUDE : ℚ
  MAX_ALARM_DURATION : ℚ
deriving DecidableEq

/-- The literal values of `CONFIG` in the source (lines 22-43). -/
def CONFIG : Config :=
  { MAX_DISTANCE := 300, EVACUATION_MAGNITUDE := 9/2, MAX_ALARM_DURATION := 120 }

/-- Environment of one `play_alarm` call: whether
`os.path.exists(CONFIG["ALARM_SOUND"])` holds, and the handle produced by the
platform player invocation — `some h` when a player process starts (the
Windows `start` shell, or the first posix player binary found by the
`for player_cmd in players` loop), `none` when every posix binary raises
`FileNotFoundError` and the loop falls through. -/
structure AlarmEnv where
  soundFileExists : Bool
  playerHandle : Option Nat
deriving DecidableEq

/-- The module-level mutable globals plus the externally visible history the
claims talk about.  `timers` records the durations of auto-stop timers armed
by `threading.Timer(d, stop_alarm).start()`; `terminations` counts terminate
operations issued against the sink process; `sys_log` records `logger`
output; `last_quake_file` and `quake_log` are the contents of
`last_quake.json` and `earthquake_log.txt`. -/
structure FullState where
  is_alarm_active : Bool
  alarm_process : Option Nat
  timers : List ℚ
  terminations : Nat
  sys_log : List LogEntry
  last_earthquake_id : Option String
  last_quake_file : Option QuakeData
  quake_log : List QuakeData
  shutdown_requested : Bool
deriving DecidableEq

/-- The state right after module initialisation (lines 46-50):
`is_alarm_active = False`, `alarm_process = None`, `last_earthquake_id = None`,
`shutdown_requested = False`, empty logs. -/
def initFullState : FullState :=
  { is_alarm_active := false
    alarm_process := none
    timers := []
    terminations := 0
    sys_log := []
    last_earthquake_id := none
    last_quake_file := none
    quake_log := []
    shutdown_requested := false }

/-- Embedding of `play_alarm` (lines 90-140).  If the alarm is already active
it returns immediately.  Otherwise it logs the alert banner and sets
`is_alarm_active = True`; if the sound file is missing it logs the error and
returns (note: without resetting the flag — the `except` handler that resets
it is not reached by this `return`).  Otherwise the platform player is
started when available (`alarm_process` set iff a player process starts) and
an auto-stop timer of `MAX_ALARM_DURATION` seconds is armed. -/
def play_alarm (cfg : Config) (env : AlarmEnv) (s : FullState) : FullState :=
  if s.is_alarm_active then s
  else
    let s1 := { s with sys_log := s.sys_log ++ [LogEntry.alertInfo], is_alarm_active := true }
    if env.soundFileExists = false then
      { s1 with sys_log := s1.sys_log ++ [LogEntry.alarmFileMissing] }
    else
      let s2 :=
        match env.playerHandle with
        | some h => { s1 with alarm_process := some h }
        | none => s1
      { s2 with timers := s2.timers ++ [cfg.MAX_ALARM_DURATION] }

/-- Embedding of `stop_alarm` (lines 142-164).  A no-op when the alarm is not
active; otherwise it clears the flag and, when a process handle exists,
terminates it (Windows `taskkill` / posix `terminate()` both map to one
termination), clears the handle and logs the stop message. -/
def stop_alarm (s : FullState) : FullState :=
  if s.is_alarm_active = false then s
  else
    let s1 := { s with is_alarm_active := false }
    match s1.alarm_process with
    | none => s1
    | some _ =>
        { s1 with alarm_process := none
                  terminations := s1.terminations + 1
                  sys_log := s1.sys_log ++ [LogEntry.alarmStopped] }

/-- The auto-stop timer's callback is the `stop_alarm` function itself
(`threading.Timer(CONFIG["MAX_ALARM_DURATION"], stop_alarm)`, line 136). -/
def timer_callback : FullState → FullState := stop_alarm

/-- The acknowledgment action (the `'a'` key handler and the signal handler
both call `stop_alarm`, lines 307/336). -/
def acknowledge_action : FullState → FullState := stop_alarm

/-- An entry of the `nearby_quakes` list built in `check_earthquakes`
(lines 229-232): the feed record paired with its computed distance. -/
abbrev Entry := Feature × ℚ

/-- The proximity filter of `check_earthquakes` (lines 214-232): for each
feed record compute its distance from the configured location and keep the
record (paired with the distance) when `distance <= CONFIG["MAX_DISTANCE"]`,
preserving feed order.  `dist` abstracts
`calculate_distance(lat0, lon0, q.lat, q.lon)`. -/
def nearby_quakes (dist : Feature → ℚ) (maxD : ℚ) : List Feature → List Entry
  | [] => []
  | q :: rest =>
      if dist q ≤ maxD then (q, dist q) :: nearby_quakes dist maxD rest
      else nearby_quakes dist maxD rest

/-- Stable insertion of an entry into a list sorted by descending magnitude:
the entry is placed before the first element whose magnitude is at most its
own, so among equal magnitudes the inserted (earlier-in-feed) entry comes
first. -/
def insertByMagDesc (x : Entry) : List Entry → List Entry
  | [] => [x]
  | y :: ys => if y.1.mag ≤ x.1.mag then x :: y :: ys else y :: insertByMagDesc x ys

/-- Stable sort by descending magnitude, the embedding of
`nearby_quakes.sort(key=lambda x: x["quake"]["properties"]["mag"],
reverse=True)` (line 239).  Python's `list.sort` is stable also under
`reverse=True`, and a stable sort's output is uniquely determined by the key
order and the input order, so this stable insertion sort computes the same
list. -/
def sortByMagDesc : List Entry → List Entry
  | [] => []
  | a :: l => insertByMagDesc a (sortByMagDesc l)

/-- Selection of the strongest nearby quake (lines 238-242): sort by
descending magnitude and take the first element; `none` exactly when no
nearby quake was retained (the code prints "No hay sismos cercanos" and
returns in that case). -/
def selectStrongest (l : List Entry) : Option Entry :=
  (sortByMagDesc l).head?

/-- Reference description of "first element of maximum magnitude": scan the
list, keeping the current candidate unless a strictly greater magnitude
appears later. -/
def firstMax : List Entry → Option Entry
  | [] => none
  | a :: l =>
      match firstMax l with
      | none => some a
      | some m => if a.1.mag < m.1.mag then some m else some a

/-- The `quake_data` dictionary assembled in `check_earthquakes`
(lines 259-266) for the strongest nearby entry. -/
def mkQuakeData (e : Entry) : QuakeData :=
  { id := e.1.id
    magnitude := e.1.mag
    depth := e.1.depth
    location := e.1.place
    time_ms := e.1.time_ms
    distance := e.2 }

/-- Embedding of `save_last_quake` (lines 180-186): overwrite
`last_quake.json` with the record (I/O errors are logged and swallowed in
the source; persistence is modelled as succeeding). -/
def save_last_quake (qd : QuakeData) (s : FullState) : FullState :=
  { s with last_quake_file := some qd }

/-- Embedding of `log_earthquake` (lines 166-178): append one entry to
`earthquake_log.txt`. -/
def log_earthquake (qd : QuakeData) (s : FullState) : FullState :=
  { s with quake_log := s.quake_log ++ [qd] }

/-- Embedding of `check_earthquakes` (lines 200-291) on the success path of
the fetch, with the `features` array given as input.  Empty feed: report
only, no state change.  Otherwise filter by proximity; if nothing is nearby,
report only.  Otherwise take the strongest nearby quake; if its identifier
equals the stored one, return with no state change (line 247).  Otherwise
set `last_earthquake_id`, persist the record via `save_last_quake`, append
it to the log via `log_earthquake` (lines 268-270), and finally call
`play_alarm` exactly when the magnitude reaches `EVACUATION_MAGNITUDE`
(lines 281-282). -/
def check_earthquakes (cfg : Config) (env : AlarmEnv) (dist : Feature → ℚ)
    (features : List Feature) (s : FullState) : FullState :=
  if features = [] then s
  else
    let nearby := nearby_quakes dist cfg.MAX_DISTANCE features
    match selectStrongest nearby with
    | none => s
    | some strongest =>
        if some strongest.1.id = s.last_earthquake_id then s
        else
          let qd := mkQuakeData strongest
          let s1 := log_earthquake qd (save_last_quake qd
                      { s with last_earthquake_id := some strongest.1.id })
          if cfg.EVACUATION_MAGNITUDE ≤ strongest.1.mag then play_alarm cfg env s1 else s1

/-- One iteration of the Windows branch of `handle_keyboard_input`
(lines 302-311): `msvcrt.kbhit()` is modelled by the pending input being
nonempty; when it is, `msvcrt.getch()` consumes exactly one character, and
`'a'` stops the alarm only when it is active while `'q'` sets the shutdown
flag and then stops the alarm. -/
def windows_iteration (pending : List Char) (s : FullState) : List Char × FullState :=
  match pending with
  | [] => (pending, s)
  | k :: rest =>
      if k.toLower = 'a' ∧ s.is_alarm_active = true then (rest, stop_alarm s)
      else if k.toLower = 'q' then
        (rest, stop_alarm { s with shutdown_requested := true })
      else (rest, s)

/-- One iteration of the posix branch of `handle_keyboard_input`
(lines 312-324).  Each `sys.stdin.read(1)` is a blocking one-character read,
modelled by consuming the head of the pending input and returning `none`
(blocked) when no character is pending.  The source performs the read twice:
once in the `if` condition (`'a'` and alarm active) and — whenever that
condition is false — a second time in the `elif` condition testing for
`'q'`. -/
def posix_iteration (pending : List Char) (s : FullState) :
    Option (List Char × FullState) :=
  match pending with
  | [] => none
  | c1 :: rest1 =>
      if c1.toLower = 'a' ∧ s.is_alarm_active = true then some (rest1, stop_alarm s)
      else
        match rest1 with
        | [] => none
        | c2 :: rest2 =>
            if c2.toLower = 'q' then
              some (rest2, stop_alarm { s with shutdown_requested := true })
            else some (rest2, s)

/-- The shared globals touched by `stop_alarm`, for the interleaving model:
the alert flag, the sink handle, and an instrumentation counter of terminate
operations issued against the sink. -/
structure Shared where
  is_alarm_active : Bool
  alarm_process : Option Nat
  terminations : Nat
deriving DecidableEq

/-- Program counter of one thread executing `stop_alarm`.  CPython's GIL
makes each individual global load or store atomic but allows a thread switch
between any two of them, so the function body splits into these atomic
steps: read the flag and branch (line 146), write the flag (line 149), read
the handle and branch (line 151), terminate the process (lines 155/158),
clear the handle (line 160). -/
inductive StopPC where
  | checkFlag
  | clearFlag
  | checkProc
  | termProc
  | clearProc
  | done
deriving DecidableEq

/-- One atomic step of a thread executing `stop_alarm` over the shared
globals. -/
def stop_step : StopPC × Shared → StopPC × Shared
  | (.checkFlag, g) =>
      if g.is_alarm_active then (.clearFlag, g) else (.done, g)
  | (.clearFlag, g) => (.checkProc, { g with is_alarm_active := false })
  | (.checkProc, g) =>
      match g.alarm_process with
      | some _ => (.termProc, g)
      | none => (.done, g)
  | (.termProc, g) => (.clearProc, { g with terminations := g.terminations + 1 })
  | (.clearProc, g) => (.done, { g with alarm_process := none })
  | (.done, g) => (.done, g)

/-- Two threads concurrently executing `stop_alarm` — e.g. the `'a'`-key
acknowledgment in the keyboard thread and a firing `threading.Timer`
auto-stop callback — over the shared globals. -/
structure TwoThreads where
  pcA : StopPC
  pcB : StopPC
  shared : Shared
deriving DecidableEq

/-- Run one atomic step of thread A (`true`) or thread B (`false`). -/
def sched_step (c : TwoThreads) (runA : Bool) : TwoThreads :=
  if runA then
    let r := stop_step (c.pcA, c.shared)
    { c with pcA := r.1, shared := r.2 }
  else
    let r := stop_step (c.pcB, c.shared)
    { c with pcB := r.1, shared := r.2 }

/-- Run a whole schedule (a choice of thread per atomic step). -/
def run_sched (c : TwoThreads) : List Bool → TwoThreads
  | [] => c
  | b :: bs => run_sched (sched_step c b) bs

/-- Both threads about to call `stop_alarm` while the alarm is active with a
live sink handle and no termination issued yet. -/
def raceStart : TwoThreads :=
  { pcA := .checkFlag, pcB := .checkFlag
    shared := { is_alarm_active := true, alarm_process := some 0, terminations := 0 } }

/-- Demonstration distance function for concrete instances: the computed
distance of a record is read off its `lat` field (the embedding treats the
distance computation as a function parameter). -/
def distDemo (q : Feature) : ℚ := q.lat

/-- Demonstration feed record at distance 50 with magnitude 5. -/
def fDemo : Feature := ⟨"e1", 5, 0, 50, 10, "p", 0⟩

/-- The evaluated entry the pipeline produces for `fDemo`. -/
def eDemo : Entry := (fDemo, 50)

/-- Synthetic event at distance R-1 from the origin for radius R = 300. -/
def fNear : Feature := ⟨"near", 2, 0, 299, 10, "n", 0⟩

/-- Synthetic event at distance R+1 from the origin for radius R = 300. -/
def fFar : Feature := ⟨"far", 6, 0, 301, 10, "f", 0⟩

/-- Retained entries with magnitudes 3.0, 5.1, 4.9 in feed order. -/
def demoEntries : List Entry :=
  [(⟨"m30", 3, 0, 0, 10, "a", 0⟩, 50),
   (⟨"m51", 51/10, 1, 1, 10, "b", 0⟩, 60),
   (⟨"m49", 49/10, 2, 2, 10, "c", 0⟩, 70)]

theorem insertByMagDesc_ne_nil (x : Entry) (l : List Entry) :
    insertByMagDesc x l ≠ [] := by
  cases l with
  | nil => simp [insertByMagDesc]
  | cons y ys =>
      unfold insertByMagDesc
      split <;> simp

theorem sortByMagDesc_eq_nil_iff (l : List Entry) :
    sortByMagDesc l = [] ↔ l = [] := by
  cases l with
  | nil => simp [sortByMagDesc]
  | cons a t =>
      simp only [sortByMagDesc]
      constructor
      · intro h
        exact absurd h (insertByMagDesc_ne_nil a (sortByMagDesc t))
      · intro h
        exact absurd h (by simp)

theorem head_insertByMagDesc (x : Entry) (l : List Entry) :
    (insertByMagDesc x l).head? =
      match l.head? with
      | none => some x
      | some y => if y.1.mag ≤ x.1.mag then some x else some y := by
  cases l with
  | nil => simp [insertByMagDesc]
  | cons y ys =>
      unfold insertByMagDesc
      split
      · rename_i h
        simp [h]
      · rename_i h
        simp [h]

/-- The head of the stable descending sort is the first maximum-magnitude
entry of the input. -/
theorem head_sortByMagDesc (l : List Entry) :
    (sortByMagDesc l).head? = firstMax l := by
  induction l with
  | nil => rfl
  | cons a t ih =>
      simp only [sortByMagDesc, firstMax, head_insertByMagDesc]
      rw [ih]
      cases hfm : firstMax t with
      | none => simp
      | some m =>
          simp only []
          by_cases hlt : a.1.mag < m.1.mag
          · rw [if_neg (not_le.mpr hlt), if_pos hlt]
          · rw [if_pos (not_lt.mp hlt), if_neg hlt]

theorem firstMax_spec (l : List Entry) (hne : l ≠ []) :
    ∃ m, firstMax l = some m ∧ (∀ x ∈ l, x.1.mag ≤ m.1.mag) ∧
      ∃ l₁ l₂, l = l₁ ++ m :: l₂ ∧ ∀ x ∈ l₁, x.1.mag < m.1.mag := by
  induction l with
  | nil => exact absurd rfl hne
  | cons a t ih =>
      cases ht : t with
      | nil =>
          refine ⟨a, by simp [firstMax], ?_, [], [], by simp, by simp⟩
          intro x hx
          simp at hx
          simp [hx]
      | cons b t' =>
          obtain ⟨m, hm, hge, l₁, l₂, hsplit, hlt⟩ := ih (by simp [ht])
          rw [← ht] at *
          by_cases hcase : a.1.mag < m.1.mag
          · refine ⟨m, by simp [firstMax, hm, hcase], ?_, a :: l₁, l₂, by simp [hsplit], ?_⟩
            · intro x hx
              rcases List.mem_cons.mp hx with hx | hx
              · exact hx ▸ le_of_lt hcase
              · exact hge x hx
            · intro x hx
              rcases List.mem_cons.mp hx with hx | hx
              · exact hx ▸ hcase
              · exact hlt x hx
          · refine ⟨a, by simp [firstMax, hm, hcase], ?_, [], t, by simp, by simp⟩
            intro x hx
            rcases List.mem_cons.mp hx with hx | hx
            · simp [hx]
            · exact le_trans (hge x hx) (not_lt.mp hcase)

/-- C2: a trigger call made while the alert is already active returns at the
top of `play_alarm` and is a complete no-op: the state — and in particular
the sink handle, the armed timers, and the alert flag — is unchanged, so no
second sink is started and the auto-stop timer is not re-armed. -/
theorem trigger_while_active_noop (cfg : Config) (env : AlarmEnv) (s : FullState)
    (h : s.is_alarm_active = true) : play_alarm cfg env s = s := by
  unfold play_alarm
  simp [h]

/-- Witness for C2 at a concrete active state. -/
theorem trigger_while_active_noop_witness :
    play_alarm CONFIG ⟨true, some 7⟩
      { initFullState with is_alarm_active := true, alarm_process := some 3 } =
      { initFullState with is_alarm_active := true, alarm_process := some 3 } :=
  trigger_while_active_noop CONFIG ⟨true, some 7⟩
    { initFullState with is_alarm_active := true, alarm_process := some 3 } rfl

/-- C10: calling `stop_alarm` when the active flag is set but no sink handle
exists clears the flag and does nothing else — no termination is attempted,
no log entry is written, and the call returns normally; when the flag is not
set the call is a pure no-op. -/
theorem stop_alarm_no_handle_safe (s : FullState) :
    (s.is_alarm_active = true → s.alarm_process = none →
      stop_alarm s = { s with is_alarm_active := false }) ∧
    (s.is_alarm_active = false → stop_alarm s = s) := by
  constructor
  · intro hact hproc
    unfold stop_alarm
    simp [hact, hproc]
  · intro hidle
    unfold stop_alarm
    simp [hidle]

/-- Witness for C10: the flag-set-no-handle case and the idle case at
concrete states. -/
theorem stop_alarm_no_handle_safe_witness :
    (stop_alarm { initFullState with is_alarm_active := true } =
      { { initFullState with is_alarm_active := true } with is_alarm_active := false }) ∧
    stop_alarm initFullState = initFullState :=
  ⟨(stop_alarm_no_handle_safe { initFullState with is_alarm_active := true }).1 rfl rfl,
   (stop_alarm_no_handle_safe initFullState).2 rfl⟩

/-- C1 (code behaviour at the failing inputs): triggering from the idle state
when the sink cannot start is NOT a no-op.  With the sound file missing,
`play_alarm` logs the error but leaves `is_alarm_active = true` (the early
`return` at line 107 skips the reset that the `except` handler would
perform), with no sink handle and no timer armed; with the file present but
every posix player binary missing, the flag is again left `true`, no error
is logged, no handle is set, and an auto-stop timer is still armed. -/
theorem play_alarm_sink_failure_not_noop :
    ((play_alarm CONFIG ⟨false, none⟩ initFullState).is_alarm_active = true ∧
     (play_alarm CONFIG ⟨false, none⟩ initFullState).alarm_process = none ∧
     (play_alarm CONFIG ⟨false, none⟩ initFullState).timers = [] ∧
     (play_alarm CONFIG ⟨false, none⟩ initFullState).sys_log =
       [LogEntry.alertInfo, LogEntry.alarmFileMissing]) ∧
    ((play_alarm CONFIG ⟨true, none⟩ initFullState).is_alarm_active = true ∧
     (play_alarm CONFIG ⟨true, none⟩ initFullState).alarm_process = none ∧
     (play_alarm CONFIG ⟨true, none⟩ initFullState).timers = [(120 : ℚ)] ∧
     (play_alarm CONFIG ⟨true, none⟩ initFullState).sys_log = [LogEntry.alertInfo]) := by
  refine ⟨⟨rfl, rfl, rfl, rfl⟩, ⟨rfl, rfl, rfl, rfl⟩⟩

/-- C7: a successful trigger from the idle state (sound file present) arms
exactly one auto-stop timer with duration `MAX_ALARM_DURATION` and moves to
the active state; firing that timer's callback — which is the very
`stop_alarm` function the `'a'`-key acknowledgment uses — returns the state
to inactive with the sink handle cleared, so the timeout path and the
acknowledge path are one and the same termination path. -/
theorem trigger_arms_autostop_timer (cfg : Config) (env : AlarmEnv) (s : FullState)
    (hidle : s.is_alarm_active = false) (hfile : env.soundFileExists = true) :
    (play_alarm cfg env s).timers = s.timers ++ [cfg.MAX_ALARM_DURATION] ∧
    (play_alarm cfg env s).is_alarm_active = true ∧
    (timer_callback (play_alarm cfg env s)).is_alarm_active = false ∧
    (timer_callback (play_alarm cfg env s)).alarm_process = none ∧
    timer_callback = acknowledge_action := by
  have hplay :
      (play_alarm cfg env s).timers = s.timers ++ [cfg.MAX_ALARM_DURATION] ∧
      (play_alarm cfg env s).is_alarm_active = true ∧
      ((play_alarm cfg env s).alarm_process = s.alarm_process ∨
        ∃ h, (play_alarm cfg env s).alarm_process = some h) := by
    unfold play_alarm
    cases hph : env.playerHandle with
    | none => simp [hidle, hfile, hph]
    | some h => simp [hidle, hfile, hph]
  obtain ⟨ht, ha, hp⟩ := hplay
  refine ⟨ht, ha, ?_, ?_, rfl⟩
  · show (stop_alarm (play_alarm cfg env s)).is_alarm_active = false
    unfold stop_alarm
    cases hpp : (play_alarm cfg env s).alarm_process with
    | none => simp [ha, hpp]
    | some h => simp [ha, hpp]
  · show (stop_alarm (play_alarm cfg env s)).alarm_process = none
    unfold stop_alarm
    cases hpp : (play_alarm cfg env s).alarm_process with
    | none => simp [ha, hpp]
    | some h => simp [ha, hpp]

/-- Witness for C7 at the initial state with a concrete player handle. -/
theorem trigger_arms_autostop_timer_witness :
    (play_alarm CONFIG ⟨true, some 5⟩ initFullState).timers =
        initFullState.timers ++ [CONFIG.MAX_ALARM_DURATION] ∧
    (play_alarm CONFIG ⟨true, some 5⟩ initFullState).is_alarm_active = true ∧
    (timer_callback (play_alarm CONFIG ⟨true, some 5⟩ initFullState)).is_alarm_active = false ∧
    (timer_callback (play_alarm CONFIG ⟨true, some 5⟩ initFullState)).alarm_process = none ∧
    timer_callback = acknowledge_action :=
  trigger_arms_autostop_timer CONFIG ⟨true, some 5⟩ initFullState rfl rfl

theorem play_alarm_preserves_records (cfg : Config) (env : AlarmEnv) (s : FullState) :
    (play_alarm cfg env s).last_quake_file = s.last_quake_file ∧
    (play_alarm cfg env s).last_earthquake_id = s.last_earthquake_id ∧
    (play_alarm cfg env s).quake_log = s.quake_log := by
  unfold play_alarm
  by_cases h : s.is_alarm_active = true
  · simp [h]
  · cases hf : env.soundFileExists
    · simp [h, hf]
    · cases hph : env.playerHandle <;> simp [h, hf, hph]

/-- C6: on a non-empty retained list, the sort-descending-and-take-first
selection returns an entry of maximum magnitude, and among equal maxima the
one listed first in feed order (every entry strictly before it has strictly
smaller magnitude). -/
theorem selectStrongest_first_max (l : List Entry) (hne : l ≠ []) :
    ∃ m, selectStrongest l = some m ∧ (∀ x ∈ l, x.1.mag ≤ m.1.mag) ∧
      ∃ l₁ l₂, l = l₁ ++ m :: l₂ ∧ ∀ x ∈ l₁, x.1.mag < m.1.mag := by
  obtain ⟨m, hm, hge, l₁, l₂, hsplit, hlt⟩ := firstMax_spec l hne
  refine ⟨m, ?_, hge, l₁, l₂, hsplit, hlt⟩
  unfold selectStrongest
  rw [head_sortByMagDesc]
  exact hm

/-- Witness for C6 on magnitudes [3.0, 5.1, 4.9]. -/
theorem selectStrongest_first_max_witness :
    ∃ m, selectStrongest demoEntries = some m ∧
      (∀ x ∈ demoEntries, x.1.mag ≤ m.1.mag) ∧
      ∃ l₁ l₂, demoEntries = l₁ ++ m :: l₂ ∧ ∀ x ∈ l₁, x.1.mag < m.1.mag :=
  selectStrongest_first_max demoEntries (by simp [demoEntries])

/-- C5: the proximity filter retains exactly the records whose computed
distance is at most `MAX_DISTANCE` (pairing each with its distance), and a
poll cycle in which nothing is retained changes no state at all — no alert,
no dedup update, no persisted record, no log entry. -/
theorem nearby_quakes_filter_spec (dist : Feature → ℚ) :
    (∀ maxD l (q : Feature) (d : ℚ),
      (q, d) ∈ nearby_quakes dist maxD l ↔ q ∈ l ∧ d = dist q ∧ dist q ≤ maxD) ∧
    (∀ cfg env l s, nearby_quakes dist cfg.MAX_DISTANCE l = [] →
      check_earthquakes cfg env dist l s = s) := by
  constructor
  · intro maxD l
    induction l with
    | nil => intro q d; simp [nearby_quakes]
    | cons a t ih =>
        intro q d
        unfold nearby_quakes
        by_cases hd : dist a ≤ maxD
        · rw [if_pos hd]
          constructor
          · intro h
            rcases List.mem_cons.mp h with h | h
            · rw [Prod.mk.injEq] at h
              obtain ⟨hq, hd2⟩ := h
              subst hq
              exact ⟨List.mem_cons_self _ _, hd2, hd⟩
            · obtain ⟨hq, hdq, hle⟩ := (ih q d).mp h
              exact ⟨List.mem_cons_of_mem a hq, hdq, hle⟩
          · rintro ⟨hq, hdq, hle⟩
            rcases List.mem_cons.mp hq with hq | hq
            · subst hq
              exact List.mem_cons.mpr (Or.inl (by rw [hdq]))
            · exact List.mem_cons.mpr (Or.inr ((ih q d).mpr ⟨hq, hdq, hle⟩))
        · rw [if_neg hd]
          constructor
          · intro h
            obtain ⟨hq, hdq, hle⟩ := (ih q d).mp h
            exact ⟨List.mem_cons_of_mem a hq, hdq, hle⟩
          · rintro ⟨hq, hdq, hle⟩
            rcases List.mem_cons.mp hq with hq | hq
            · subst hq
              exact absurd hle hd
            · exact (ih q d).mpr ⟨hq, hdq, hle⟩
  · intro cfg env l s hnil
    unfold check_earthquakes
    by_cases hl : l = []
    · rw [if_pos hl]
    · rw [if_neg hl]
      simp only [hnil, selectStrongest, sortByMagDesc, List.head?_nil]

/-- Witness for C5: radius 300 with events at distances 299 and 301 retains
exactly the first, and a cycle retaining nothing is a no-op. -/
theorem nearby_quakes_filter_spec_witness :
    ((fNear, (299 : ℚ)) ∈ nearby_quakes distDemo 300 [fNear, fFar] ∧
      (fFar, (301 : ℚ)) ∉ nearby_quakes distDemo 300 [fNear, fFar]) ∧
    check_earthquakes CONFIG ⟨true, some 1⟩ distDemo [fFar] initFullState = initFullState := by
  refine ⟨⟨?_, ?_⟩, ?_⟩
  · exact ((nearby_quakes_filter_spec distDemo).1 300 [fNear, fFar] fNear 299).mpr
      (by refine ⟨by simp, by decide, by decide⟩)
  · intro h
    have := ((nearby_quakes_filter_spec distDemo).1 300 [fNear, fFar] fFar 301).mp h
    have hle := this.2.2
    revert hle
    decide
  · exact (nearby_quakes_filter_spec distDemo).2 CONFIG ⟨true, some 1⟩ [fFar]
      initFullState (by decide)

/-- C3: a cycle whose strongest nearby event carries the identifier already
stored in `last_earthquake_id` returns at the dedup check and changes
nothing: the whole state — alert controller, persisted record, event log —
is exactly as before. -/
theorem same_id_cycle_noop (cfg : Config) (env : AlarmEnv) (dist : Feature → ℚ)
    (features : List Feature) (s : FullState) (strongest : Entry)
    (hsel : selectStrongest (nearby_quakes dist cfg.MAX_DISTANCE features) = some strongest)
    (hid : some strongest.1.id = s.last_earthquake_id) :
    check_earthquakes cfg env dist features s = s := by
  have hfne : features ≠ [] := by
    intro h
    subst h
    simp [nearby_quakes, selectStrongest, sortByMagDesc] at hsel
  unfold check_earthquakes
  rw [if_neg hfne]
  simp only [hsel, if_pos hid]

/-- Witness for C3 at a concrete already-seen event. -/
theorem same_id_cycle_noop_witness :
    check_earthquakes CONFIG ⟨true, some 1⟩ distDemo [fDemo]
      { initFullState with last_earthquake_id := some "e1" } =
      { initFullState with last_earthquake_id := some "e1" } :=
  same_id_cycle_noop CONFIG ⟨true, some 1⟩ distDemo [fDemo]
    { initFullState with last_earthquake_id := some "e1" } eDemo (by decide) (by decide)

/-- C4: a cycle whose strongest nearby event has a new identifier records it
— `last_earthquake_id` is set, the record is written to `last_quake.json`
and appended to the event log — regardless of the evacuation threshold;
below the threshold the alarm fields are untouched (the state is exactly the
persisted update), and at or above it the cycle is that update followed by
the `play_alarm` call. -/
theorem new_event_persist_and_threshold (cfg : Config) (env : AlarmEnv)
    (dist : Feature → ℚ) (features : List Feature) (s : FullState) (strongest : Entry)
    (hsel : selectStrongest (nearby_quakes dist cfg.MAX_DISTANCE features) = some strongest)
    (hnew : ¬ some strongest.1.id = s.last_earthquake_id) :
    (check_earthquakes cfg env dist features s).last_quake_file =
        some (mkQuakeData strongest) ∧
    (check_earthquakes cfg env dist features s).last_earthquake_id =
        some strongest.1.id ∧
    (check_earthquakes cfg env dist features s).quake_log =
        s.quake_log ++ [mkQuakeData strongest] ∧
    (strongest.1.mag < cfg.EVACUATION_MAGNITUDE →
      check_earthquakes cfg env dist features s =
        log_earthquake (mkQuakeData strongest) (save_last_quake (mkQuakeData strongest)
          { s with last_earthquake_id := some strongest.1.id })) ∧
    (cfg.EVACUATION_MAGNITUDE ≤ strongest.1.mag →
      check_earthquakes cfg env dist features s =
        play_alarm cfg env (log_earthquake (mkQuakeData strongest)
          (save_last_quake (mkQuakeData strongest)
            { s with last_earthquake_id := some strongest.1.id }))) := by
  have hfne : features ≠ [] := by
    intro h
    subst h
    simp [nearby_quakes, selectStrongest, sortByMagDesc] at hsel
  have key : check_earthquakes cfg env dist features s =
      if cfg.EVACUATION_MAGNITUDE ≤ strongest.1.mag then
        play_alarm cfg env (log_earthquake (mkQuakeData strongest)
          (save_last_quake (mkQuakeData strongest)
            { s with last_earthquake_id := some strongest.1.id }))
      else
        log_earthquake (mkQuakeData strongest) (save_last_quake (mkQuakeData strongest)
          { s with last_earthquake_id := some strongest.1.id }) := by
    unfold check_earthquakes
    rw [if_neg hfne]
    simp only [hsel, if_neg hnew]
  rw [key]
  by_cases hth : cfg.EVACUATION_MAGNITUDE ≤ strongest.1.mag
  · rw [if_pos hth]
    obtain ⟨h1, h2, h3⟩ := play_alarm_preserves_records cfg env
      (log_earthquake (mkQuakeData strongest) (save_last_quake (mkQuakeData strongest)
        { s with last_earthquake_id := some strongest.1.id }))
    refine ⟨by rw [h1]; rfl, by rw [h2]; rfl, by rw [h3]; rfl, ?_, fun _ => rfl⟩
    intro hlt
    exact absurd hlt (not_lt.mpr hth)
  · rw [if_neg hth]
    exact ⟨rfl, rfl, rfl, fun _ => rfl, fun h => absurd h hth⟩

/-- Witness for C4 at a concrete unseen event of magnitude 5 ≥ 4.5. -/
theorem new_event_persist_and_threshold_witness :
    (check_earthquakes CONFIG ⟨true, some 1⟩ distDemo [fDemo] initFullState).last_quake_file =
        some (mkQuakeData eDemo) ∧
    (check_earthquakes CONFIG ⟨true, some 1⟩ distDemo [fDemo] initFullState).last_earthquake_id =
        some eDemo.1.id ∧
    (check_earthquakes CONFIG ⟨true, some 1⟩ distDemo [fDemo] initFullState).quake_log =
        initFullState.quake_log ++ [mkQuakeData eDemo] ∧
    (eDemo.1.mag < CONFIG.EVACUATION_MAGNITUDE →
      check_earthquakes CONFIG ⟨true, some 1⟩ distDemo [fDemo] initFullState =
        log_earthquake (mkQuakeData eDemo) (save_last_quake (mkQuakeData eDemo)
          { initFullState with last_earthquake_id := some eDemo.1.id })) ∧
    (CONFIG.EVACUATION_MAGNITUDE ≤ eDemo.1.mag →
      check_earthquakes CONFIG ⟨true, some 1⟩ distDemo [fDemo] initFullState =
        play_alarm CONFIG ⟨true, some 1⟩ (log_earthquake (mkQuakeData eDemo)
          (save_last_quake (mkQuakeData eDemo)
            { initFullState with last_earthquake_id := some eDemo.1.id }))) :=
  new_event_persist_and_threshold CONFIG ⟨true, some 1⟩ distDemo [fDemo]
    initFullState eDemo (by decide) (by decide)

/-- C8 (code behaviour at the failing input): the Windows branch consumes
one pending character and a single `'q'` sets the shutdown flag, but the
posix branch blocks on a second one-character read whenever the first
character fails the `'a'`-and-active test — a lone `'q'` leaves the
iteration blocked with the shutdown flag unset, and shutdown needs `'q'` as
the SECOND character consumed. -/
theorem keyboard_single_q_divergence :
    windows_iteration ['q'] initFullState =
      ([], { initFullState with shutdown_requested := true }) ∧
    posix_iteration ['q'] initFullState = none ∧
    posix_iteration ['q', 'q'] initFullState =
      some ([], { initFullState with shutdown_requested := true }) := by
  refine ⟨by decide, by decide, by decide⟩

/-- C9 counterexample: with per-interpreter-step atomicity (the GIL model —
individual loads and stores of the globals are atomic, thread switches may
occur between them), there is an interleaving of an acknowledge and a firing
auto-stop timeout, both executing `stop_alarm` from the active state with a
live sink handle, in which both threads pass the active-flag and handle
checks and the sink is terminated twice. -/
theorem stop_alarm_race_double_terminate :
    (run_sched raceStart
        [true, false, true, false, true, false, true, false, true, false]).shared.terminations = 2 ∧
    (run_sched raceStart
        [true, false, true, false, true, false, true, false, true, false]).pcA = StopPC.done ∧
    (run_sched raceStart
        [true, false, true, false, true, false, true, false, true, false]).pcB = StopPC.done := by
  refine ⟨by decide, by decide, by decide⟩

/-- C9 (amended): `stop_alarm`'s accesses to the alert flag and sink handle
are not serialized by any lock; under interpreter-step atomicity a
non-interleaved execution of acknowledge followed by timeout terminates the
sink exactly once, but the interleaved schedule terminates it twice, and a
single sequential `stop_alarm` call from the active state with a handle
issues exactly one termination. -/
theorem stop_alarm_interleaving_behavior :
    (run_sched raceStart [true, true, true, true, true, false]).shared =
      { is_alarm_active := false, alarm_process := none, terminations := 1 } ∧
    (run_sched raceStart
        [true, false, true, false, true, false, true, false, true, false]).shared.terminations = 2 ∧
    (stop_alarm { initFullState with is_alarm_active := true, alarm_process := some 0 }).terminations = 1 := by
  refine ⟨by decide, by decide, by decide⟩
